import Mathlib

/-!
Shallow embedding of the discount / affiliate / CRUD-service layer of the
`config_lead_ignite` repository, together with proofs about the claims of
its specification.

Conventions of the embedding:
* Python `Decimal` values are modelled as exact rationals (`ℚ`).
* `datetime` values used only for comparisons are modelled as integers
  (`Int`, e.g. seconds since an epoch); the affiliate payout computation,
  which needs real calendar structure, uses an explicit `Date` record.
* Python `Optional` values are `Option`; Python truthiness of optional
  strings (`None` and `""` are falsy) and of optional positive ints
  (`None` and `0` are falsy) is made explicit by `optStrTruthy` and
  `optNatTruthy`.
* Distinct user-facing message strings are modelled by the inductive
  type `Msg`, one constructor per distinct message of the source.
* The storage adapter of `DiscountService` is not part of the sources;
  it is modelled as a finite map from codes to discounts, and usage
  tracking follows the in-memory fallback (`BaseDiscount.record_usage`,
  `BaseDiscount.get_user_usage_count`) that the sources implement.
-/

/-- Lookup in an association list (the model of a Python `dict`): the
first entry whose key matches. -/
def alistLookup {β : Type} : List (String × β) → String → Option β
  | [], _ => none
  | (k, v) :: rest, a => if a = k then some v else alistLookup rest a

/-- Remove every entry with the given key (the model of `del d[k]` on a
`dict`, whose keys are unique). -/
def alistErase {β : Type} : List (String × β) → String → List (String × β)
  | [], _ => []
  | (k, v) :: rest, a => if k = a then alistErase rest a else (k, v) :: alistErase rest a

/-- Python truthiness of an `Optional[str]`: `None` and `""` are falsy. -/
def optStrTruthy : Option String → Bool
  | none => false
  | some s => s ≠ ""

/-- Python truthiness of an `Optional[int]` field constrained to be
nonnegative: `None` and `0` are falsy. -/
def optNatTruthy : Option Nat → Bool
  | none => false
  | some n => n ≠ 0

/-- The raw `amount` argument accepted by the service
(`Union[Decimal, float, int, str]`): either a value that is a `Decimal`
or converts to one, or an unparseable input (carried verbatim). -/
inductive RawAmount where
  | dec (q : ℚ)
  | bad (s : String)
deriving DecidableEq, Repr

/-- `DiscountType` from `_data/discounts/enums.py`. -/
inductive DiscountType where
  | percentage
  | fixed_amount
deriving DecidableEq, Repr

/-- The distinct user-facing messages returned by
`DiscountService.validate_discount_code` / `apply_discount`
(`_data/discounts/service.py`), one constructor per distinct string. -/
inductive Msg where
  | invalidCode              -- "Invalid discount code"
  | invalidAmountFormat      -- "Invalid amount format"
  | notActive                -- "This code is no longer active"
  | usageLimit               -- "This code has reached its usage limit"
  | perUserLimit             -- "You have already used this code the maximum number of times"
  | notYetValid              -- "This code is not yet valid"
  | expired                  -- "This code has expired"
  | minPurchase (m : ℚ)      -- "Minimum purchase amount of {m} required"
  | invalidProduct           -- "This code is not valid for the selected product"
  | invalidCategory          -- "This code is not valid for the selected category"
  | invalidAccount           -- "This code is not valid for your account"
  | valid                    -- "Valid discount code"
  | applyInvalidAmount       -- "Invalid amount format: {e}" (in apply_discount)
  | applied                  -- "Discount applied successfully"
deriving DecidableEq, Repr

/-- The discount record, combining the fields of `BaseDiscount` and
`GlobalDiscount` (`_data/discounts/models.py`) that the service layer
reads.  Fields that only exist on some subclasses and are probed with
`hasattr`/`getattr` defaults (`allowed_products`, `excluded_products`,
`allowed_categories`, `excluded_categories`, `affiliate_id`) are given
their neutral defaults (`[]` / `none`) when absent, which is exactly how
the service code treats a missing attribute.  The private per-user usage
dict `_user_usage` is an association list read through its first match,
matching Python dict lookup after shadowing updates. -/
structure Discount where
  code : String
  discount_type : DiscountType
  discount_value : ℚ
  max_uses : Option Nat
  max_uses_per_user : Option Nat
  used_count : Nat
  user_usage : List (String × Nat)
  start_date : Int
  end_date : Option Int
  is_active : Bool
  min_purchase_amount : Option ℚ
  allowed_products : List String
  excluded_products : List String
  allowed_categories : List String
  excluded_categories : List String
  affiliate_id : Option String
deriving DecidableEq, Repr

/-- `BaseDiscount.get_user_usage_count`: the per-user count, defaulting
to zero. -/
def Discount.get_user_usage_count (d : Discount) (user_id : String) : Nat :=
  (alistLookup d.user_usage user_id).getD 0

/-- `BaseDiscount.record_usage`: increments `used_count`, and when a
(truthy) user id is supplied also increments that user's count. -/
def Discount.record_usage (d : Discount) (user_id : Option String) : Discount :=
  let d' := { d with used_count := d.used_count + 1 }
  if optStrTruthy user_id then
    let u := user_id.getD ""
    { d' with user_usage := (u, d'.get_user_usage_count u + 1) :: d'.user_usage }
  else d'

/-- The discount store behind the service's storage adapter: a finite
map from codes to discounts. -/
abbrev Store := List (String × Discount)

/-- `DiscountService._get_discount_by_code` against the store. -/
def getDiscountByCode (s : Store) (code : String) : Option Discount :=
  alistLookup s code

/-- Overwrite the stored discount under `code` (the effect of mutating
the retrieved discount object in place). -/
def storeSet (s : Store) (code : String) (d : Discount) : Store :=
  (s : List (String × Discount)).map (fun p => if p.1 = code then (p.1, d) else p)

/- Individual checks of `DiscountService.validate_discount_code`, in the
source's own terms. -/

/-- `discount.max_uses is not None and discount.used_count >= discount.max_uses`. -/
def usageLimitReached (d : Discount) : Bool :=
  match d.max_uses with
  | none => false
  | some m => m ≤ d.used_count

/-- `user_id and discount.max_uses_per_user` (truthiness) followed by
`user_usage >= discount.max_uses_per_user`, where the user usage is the
in-memory fallback `get_user_usage_count`. -/
def perUserLimitReached (d : Discount) (user_id : Option String) : Bool :=
  optStrTruthy user_id && optNatTruthy d.max_uses_per_user &&
    d.max_uses_per_user.getD 0 ≤ d.get_user_usage_count (user_id.getD "")

/-- `now < discount.start_date`. -/
def beforeStart (d : Discount) (now : Int) : Bool :=
  now < d.start_date

/-- `discount.end_date and now > discount.end_date`. -/
def endExpired (d : Discount) (now : Int) : Bool :=
  match d.end_date with
  | none => false
  | some e => e < now

/-- `amount is not None and discount.min_purchase_amount is not None and
amount < Decimal(str(discount.min_purchase_amount))`. -/
def belowMinPurchase (d : Discount) (amt : Option ℚ) : Bool :=
  match amt, d.min_purchase_amount with
  | some a, some m => a < m
  | _, _ => false

/-- `allowed_products` is nonempty, a product id was supplied (truthy)
and it is not in the allowed list. -/
def productNotAllowed (d : Discount) (product_id : Option String) : Bool :=
  !d.allowed_products.isEmpty && optStrTruthy product_id &&
    !d.allowed_products.contains (product_id.getD "")

/-- `product_id in excluded_products` (no truthiness guard in source). -/
def productExcluded (d : Discount) (product_id : Option String) : Bool :=
  match product_id with
  | some p => d.excluded_products.contains p
  | none => false

/-- `allowed_categories` is nonempty and (`not category_id` or the id is
not in the allowed list) — note the source rejects a missing category id
here, unlike the product check. -/
def categoryNotAllowed (d : Discount) (category_id : Option String) : Bool :=
  !d.allowed_categories.isEmpty &&
    (!optStrTruthy category_id || !d.allowed_categories.contains (category_id.getD ""))

/-- `category_id in excluded_categories`. -/
def categoryExcluded (d : Discount) (category_id : Option String) : Bool :=
  match category_id with
  | some c => d.excluded_categories.contains c
  | none => false

/-- `discount.affiliate_id` is truthy and (`not affiliate_id` or the two
ids differ as strings). -/
def affiliateMismatch (d : Discount) (affiliate_id : Option String) : Bool :=
  optStrTruthy d.affiliate_id &&
    (!optStrTruthy affiliate_id || affiliate_id.getD "" ≠ d.affiliate_id.getD "")

/-- Result triple of `validate_discount_code`. -/
structure ValidateResult where
  ok : Bool
  discount : Option Discount
  msg : Msg
deriving DecidableEq, Repr

/-- The parsed amount seen by the later checks: `none` when no amount
was supplied. -/
def parsedAmount : Option RawAmount → Option ℚ
  | some (.dec q) => some q
  | _ => none

/-- Whether the supplied amount fails the `Decimal(str(amount))`
conversion. -/
def isBadAmount : Option RawAmount → Bool
  | some (.bad _) => true
  | _ => false

/-- The body of `DiscountService.validate_discount_code` after the
code lookup succeeded with discount `d`
(`_data/discounts/service.py`, lines 48–110): the sequence of early
returns of the source, one `if` per check, in source order. -/
def validateFound (d : Discount) (now : Int)
    (product_id category_id affiliate_id user_id : Option String)
    (amount : Option RawAmount) : ValidateResult :=
  if isBadAmount amount then ⟨false, some d, .invalidAmountFormat⟩
  else if !d.is_active then ⟨false, some d, .notActive⟩
  else if usageLimitReached d then ⟨false, some d, .usageLimit⟩
  else if perUserLimitReached d user_id then ⟨false, some d, .perUserLimit⟩
  else if beforeStart d now then ⟨false, some d, .notYetValid⟩
  else if endExpired d now then ⟨false, some d, .expired⟩
  else if belowMinPurchase d (parsedAmount amount) then
    ⟨false, some d, .minPurchase (d.min_purchase_amount.getD 0)⟩
  else if productNotAllowed d product_id then ⟨false, some d, .invalidProduct⟩
  else if productExcluded d product_id then ⟨false, some d, .invalidProduct⟩
  else if categoryNotAllowed d category_id then ⟨false, some d, .invalidCategory⟩
  else if categoryExcluded d category_id then ⟨false, some d, .invalidCategory⟩
  else if affiliateMismatch d affiliate_id then ⟨false, some d, .invalidAccount⟩
  else ⟨true, some d, .valid⟩

/-- `DiscountService.validate_discount_code`
(`_data/discounts/service.py`, lines 19–110): look the code up in the
store, then run the checks of `validateFound`. -/
def validate_discount_code (store : Store) (now : Int) (code : String)
    (product_id category_id affiliate_id user_id : Option String)
    (amount : Option RawAmount) : ValidateResult :=
  match getDiscountByCode store code with
  | none => ⟨false, none, .invalidCode⟩
  | some d => validateFound d now product_id category_id affiliate_id user_id amount

/-- `BaseDiscount.can_user_use_code` (`_data/discounts/models.py`,
lines 110–130).  Note the per-user branch guards with
`self.max_uses_per_user is not None` (not truthiness). -/
def Discount.can_user_use_code (d : Discount) (now : Int)
    (user_id : Option String) : Bool :=
  if !d.is_active then false
  else if usageLimitReached d then false
  else if optStrTruthy user_id && d.max_uses_per_user.isSome &&
      d.max_uses_per_user.getD 0 ≤ d.get_user_usage_count (user_id.getD "") then false
  else if beforeStart d now then false
  else if endExpired d now then false
  else true

/-- The pydantic field / validator constraints of `BaseDiscount`
(`_data/discounts/models.py`): positive discount value, percentage
capped at 100, positive usage limits and minimum purchase when present,
end date after start date. -/
def WfDiscount (d : Discount) : Prop :=
  0 < d.discount_value ∧
  (d.discount_type = .percentage → d.discount_value ≤ 100) ∧
  d.max_uses.all (fun m => decide (0 < m)) = true ∧
  d.max_uses_per_user.all (fun m => decide (0 < m)) = true ∧
  d.min_purchase_amount.all (fun q => decide (0 < q)) = true ∧
  d.end_date.all (fun e => decide (d.start_date < e)) = true

instance (d : Discount) : Decidable (WfDiscount d) := by
  unfold WfDiscount; infer_instance

/-- Result quadruple of `apply_discount`. -/
structure ApplyResult where
  success : Bool
  amount : ℚ
  discount : Option Discount
  msg : Msg
deriving DecidableEq, Repr

/-- The discount subtrahend computed by `apply_discount`: percentage
discounts take `amount * value / 100`, fixed discounts take
`min(value, amount)`. -/
def discountSubtrahend (d : Discount) (amount : ℚ) : ℚ :=
  match d.discount_type with
  | .percentage => amount * d.discount_value / 100
  | .fixed_amount => min d.discount_value amount

/-- `DiscountService.apply_discount`
(`_data/discounts/service.py`, lines 112–164), state-passing: returns
the result quadruple together with the updated store.  Recording usage
mutates the stored discount object in place, modelled by `storeSet`;
the returned discount is that same (already updated) object. -/
def apply_discount (store : Store) (now : Int) (code : String)
    (amount : RawAmount) (user_id : Option String)
    (product_id category_id affiliate_id : Option String) :
    ApplyResult × Store :=
  match amount with
  | .bad _ => (⟨false, 0, none, .applyInvalidAmount⟩, store)
  | .dec a =>
    let v := validate_discount_code store now code product_id category_id
      affiliate_id user_id (some (.dec a))
    match v.ok, v.discount with
    | true, some d =>
      let new_amount := max 0 (a - discountSubtrahend d a)
      let uid := if optStrTruthy user_id then user_id else none
      let d' := d.record_usage uid
      (⟨true, new_amount, some d', .applied⟩, storeSet store code d')
    | _, _ => (⟨false, a, v.discount, v.msg⟩, store)

/-- A list of checks, each a failure flag paired with its rejection
message; `firstFailing` returns the message of the first failing check,
or `Msg.valid` when all pass. -/
def firstFailing : List (Bool × Msg) → Msg
  | [] => .valid
  | (failed, m) :: rest => if failed then m else firstFailing rest

/-- Run a list of checks against the looked-up discount `d`, stopping
at the first failure with its message, exactly as the early returns of
the source do. -/
def checksResult (d : Discount) : List (Bool × Msg) → ValidateResult
  | [] => ⟨true, some d, .valid⟩
  | (failed, m) :: rest => if failed then ⟨false, some d, m⟩ else checksResult d rest

/-- The checks of `validate_discount_code` that follow the code lookup
and the amount-format check, in the source's order: the active flag
first, then the usage limits, the date window, the minimum purchase,
and the product / category / affiliate scoping. -/
def orderedChecks (d : Discount) (now : Int)
    (product_id category_id affiliate_id user_id : Option String)
    (amt : Option ℚ) : List (Bool × Msg) :=
  [ (!d.is_active, .notActive),
    (usageLimitReached d, .usageLimit),
    (perUserLimitReached d user_id, .perUserLimit),
    (beforeStart d now, .notYetValid),
    (endExpired d now, .expired),
    (belowMinPurchase d amt, .minPurchase (d.min_purchase_amount.getD 0)),
    (productNotAllowed d product_id, .invalidProduct),
    (productExcluded d product_id, .invalidProduct),
    (categoryNotAllowed d category_id, .invalidCategory),
    (categoryExcluded d category_id, .invalidCategory),
    (affiliateMismatch d affiliate_id, .invalidAccount) ]

/-- The check order asserted by the specification claim: usage limits
first, with no active-flag check before them.  Modelled from the spec
claim for comparison with the source order. -/
def claimOrderChecks (d : Discount) (now : Int)
    (product_id category_id affiliate_id user_id : Option String)
    (amt : Option ℚ) : List (Bool × Msg) :=
  [ (usageLimitReached d, .usageLimit),
    (perUserLimitReached d user_id, .perUserLimit),
    (beforeStart d now, .notYetValid),
    (endExpired d now, .expired),
    (belowMinPurchase d amt, .minPurchase (d.min_purchase_amount.getD 0)),
    (productNotAllowed d product_id, .invalidProduct),
    (productExcluded d product_id, .invalidProduct),
    (categoryNotAllowed d category_id, .invalidCategory),
    (categoryExcluded d category_id, .invalidCategory),
    (affiliateMismatch d affiliate_id, .invalidAccount) ]

/-! ### Calendar model for the affiliate payout-date computation -/

/-- A Gregorian calendar date (the time-of-day component of the Python
`datetime` is preserved unchanged by every branch of the payout
computation, so it is omitted). -/
structure Date where
  year : Nat
  month : Nat
  day : Nat
deriving DecidableEq, Repr

/-- Gregorian leap-year rule. -/
def isLeapYear (y : Nat) : Bool :=
  (y % 4 == 0 && y % 100 != 0) || y % 400 == 0

/-- Number of days of a month. -/
def daysInMonth (y m : Nat) : Nat :=
  if m = 2 then (if isLeapYear y then 29 else 28)
  else if m = 4 ∨ m = 6 ∨ m = 9 ∨ m = 11 then 30
  else 31

/-- The day after a date. -/
def nextDay (d : Date) : Date :=
  if d.day < daysInMonth d.year d.month then ⟨d.year, d.month, d.day + 1⟩
  else if d.month < 12 then ⟨d.year, d.month + 1, 1⟩
  else ⟨d.year + 1, 1, 1⟩

/-- `date + timedelta(days=n)`. -/
def addDays : Date → Nat → Date
  | d, 0 => d
  | d, n + 1 => addDays (nextDay d) n

/-- `datetime.replace(year=y, month=m, day=day)`: yields `none` when the
requested combination is not a valid date (Python raises `ValueError`). -/
def dateReplace (y m day : Nat) : Option Date :=
  if 1 ≤ m ∧ m ≤ 12 ∧ 1 ≤ day ∧ day ≤ daysInMonth y m then some ⟨y, m, day⟩
  else none

/-- `PayoutSchedule` from `_data/user/affiliate/enums.py`. -/
inductive PayoutSchedule where
  | weekly
  | biweekly
  | monthly
  | quarterly
deriving DecidableEq, Repr

/-- The next-payout-date computation of the
`AffiliateProfile.calculate_lifetime_earnings` root validator
(`_data/user/affiliate/models.py`, lines 207–239), run when
`next_payout_date` is unset: weekly and biweekly add one and two weeks,
quarterly adds `timedelta(weeks=13)`, and monthly replaces the date by
day 1 of the following month (falling back to day 28 if that replacement
were invalid, which it never is). -/
def next_payout_date (schedule : PayoutSchedule) (now : Date) : Date :=
  match schedule with
  | .weekly => addDays now 7
  | .biweekly => addDays now 14
  | .quarterly => addDays now 91
  | .monthly =>
    let next_month := now.month % 12 + 1
    let year := now.year + (if next_month = 1 then 1 else 0)
    match dateReplace year next_month 1 with
    | some d => d
    | none => ⟨year, next_month, 28⟩

/-- Modelled from the spec claim (not from the source): a monthly
rollover that moves to the next calendar month keeping the day, clamped
to the end of the target month when it is shorter. -/
def claimMonthlyRollover (now : Date) : Date :=
  let m := now.month % 12 + 1
  let y := now.year + (if m = 1 then 1 else 0)
  ⟨y, m, min now.day (daysInMonth y m)⟩

/-- Modelled from the spec claim (not from the source): a quarterly
rollover that moves forward one calendar quarter (three months) keeping
the day, clamped to the end of the target month. -/
def claimQuarterlyRollover (now : Date) : Date :=
  let m0 := now.month - 1 + 3
  let m := m0 % 12 + 1
  let y := now.year + m0 / 12
  ⟨y, m, min now.day (daysInMonth y m)⟩

/-! ### In-memory CRUD service (`_data/user/ai_chat_threads/services/base.py`) -/

/-- A stored item: an id together with its attribute values, read by
name (the model objects handled by `BaseService` are pydantic models
whose fields are accessed with `getattr`). -/
structure Item where
  id : String
  attrs : List (String × String)
deriving DecidableEq, Repr

/-- `getattr(item, key)` for the modelled attributes. -/
def itemAttr (it : Item) (key : String) : Option String :=
  alistLookup it.attrs key

/-- The service's in-memory dictionary `self._storage`, keyed by item
id.  The operations below maintain key uniqueness, so the dictionary is
modelled as an association list whose update replaces the old entry. -/
abbrev SvcStorage := List (String × Item)

/-- `BaseService.get`. -/
def svcGet (s : SvcStorage) (id : String) : Option Item :=
  alistLookup s id

/-- `BaseService.exists`. -/
def svcExists (s : SvcStorage) (id : String) : Bool :=
  (svcGet s id).isSome

/-- `BaseService.create` applied to an already-constructed item:
`self._storage[item.id] = item`. -/
def svcCreate (s : SvcStorage) (it : Item) : SvcStorage :=
  (it.id, it) :: alistErase s it.id

/-- `BaseService.delete`: removes the entry and reports whether it was
present. -/
def svcDelete (s : SvcStorage) (id : String) : Bool × SvcStorage :=
  ((svcGet s id).isSome, alistErase s id)

/-- The stored values, `list(self._storage.values())`. -/
def svcValues (s : SvcStorage) : List Item :=
  (s : List (String × Item)).map (·.2)

/-- Whether an item satisfies every filter:
`all(getattr(item, key) == value for key, value in filters.items())`. -/
def matchesFilters (it : Item) (filters : List (String × String)) : Bool :=
  filters.all (fun kv => itemAttr it kv.1 == some kv.2)

/-- `BaseService.list`: all values, filtered by attribute equality when
filters are given. -/
def svcList (s : SvcStorage) (filters : List (String × String)) : List Item :=
  if filters.isEmpty then svcValues s
  else (svcValues s).filter (fun it => matchesFilters it filters)

/-! ### MCP request processing (`_data/user/ai/mcp/service.py`) -/

/-- `MCPStatus` from `_data/user/ai/mcp/models.py`. -/
inductive MCPStatus where
  | pending
  | processing
  | completed
  | failed
deriving DecidableEq, Repr

/-- `MCPResult`: success flag, optional result data (abstracted as a
key/value list), optional error text. -/
structure MCPResult where
  success : Bool
  data : Option (List (String × String))
  error : Option String
deriving DecidableEq, Repr

/-- A validated `MCPRequest` (id, operation, parameters). -/
structure MCPRequest where
  request_id : Nat
  operation : String
  parameters : List (String × String)
deriving DecidableEq, Repr

/-- `MCPResponse` (the metadata / completion-timestamp fields are not
read by any claim and are omitted). -/
structure MCPResponse where
  request_id : Nat
  status : MCPStatus
  result : Option MCPResult
deriving DecidableEq, Repr

/-- What a registered handler produces when it does not raise: either an
`MCPResult` already, or a raw value that `process_request` wraps into a
successful `MCPResult`. -/
inductive ToolOut where
  | already (r : MCPResult)
  | raw (d : List (String × String))
deriving DecidableEq, Repr

/-- A Python exception escaping `process_request` itself. -/
inductive PyErr where
  | unboundLocal
deriving DecidableEq, Repr

/-- An entry of the `MCPToolRegistry`: tool metadata whose `handler` is
optional; a handler either raises (`Except.error` with the exception
text) or returns a `ToolOut`. -/
structure Tool where
  name : String
  handler : Option (List (String × String) → Except String ToolOut)

/-- The registry `_tools` dictionary. -/
abbrev Registry := List (String × Tool)

/-- `MCPToolRegistry.get_tool`. -/
def getTool (reg : Registry) (name : String) : Option Tool :=
  alistLookup reg name

/-- The spec-level conversion of a handler result into an `MCPResult`:
results that are not already `MCPResult` are wrapped with
`success=True`. -/
def toMCPResult : ToolOut → MCPResult
  | .already r => r
  | .raw d => ⟨true, some d, none⟩

/-- The request input to `process_request`: either an already-valid
`MCPRequest` (or a dict that validates into one), or a dict that fails
`MCPRequest` model validation. -/
inductive RequestData where
  | valid (r : MCPRequest)
  | invalid
deriving Repr

/-- The `except ValidationError` handler of `process_request`: it
builds its response from `getattr(request, 'request_id', uuid4())`, but
the local variable `request` was never assigned on this path (the
assignment `request = MCPRequest(**request_data)` is what raised), so
evaluating the bare name raises `UnboundLocalError`. -/
def validationErrHandler (request : Option MCPRequest) : Except PyErr MCPResponse :=
  match request with
  | none => .error .unboundLocal
  | some req => .ok ⟨req.request_id, .failed, some ⟨false, none, some "Invalid request"⟩⟩

/-- `MCPService.process_request` (`_data/user/ai/mcp/service.py`, lines
38–115).  An unknown operation raises `ToolNotFoundError`, which the
outer `except Exception` turns into a FAILED response ("Internal server
error: ..."); a handler exception is turned into a FAILED response by
the inner `except Exception`; a request that fails model validation
reaches the `except ValidationError` handler with the local `request`
unbound. -/
def process_request (reg : Registry) (rd : RequestData) : Except PyErr MCPResponse :=
  match rd with
  | .invalid => validationErrHandler none
  | .valid req =>
    match getTool reg req.operation with
    | none =>
      .ok ⟨req.request_id, .failed,
        some ⟨false, none, some ("Internal server error: Unknown operation: " ++ req.operation)⟩⟩
    | some tool =>
      match tool.handler with
      | none =>
        .ok ⟨req.request_id, .failed,
          some ⟨false, none, some ("Internal server error: Unknown operation: " ++ req.operation)⟩⟩
      | some h =>
        match h req.parameters with
        | .error e => .ok ⟨req.request_id, .failed, some ⟨false, none, some e⟩⟩
        | .ok out => .ok ⟨req.request_id, .completed, some (toMCPResult out)⟩

/-! ### Concrete sample data used by witnesses and counterexamples -/

/-- A well-formed, active fixed-amount discount. -/
def sampleDiscount : Discount :=
  { code := "SAVE10", discount_type := .fixed_amount, discount_value := 5,
    max_uses := some 10, max_uses_per_user := some 3, used_count := 0,
    user_usage := [], start_date := 0, end_date := some 1000, is_active := true,
    min_purchase_amount := none, allowed_products := [], excluded_products := [],
    allowed_categories := [], excluded_categories := [], affiliate_id := none }

/-- An inactive discount whose total usage limit is also exhausted. -/
def inactiveExhausted : Discount :=
  { sampleDiscount with is_active := false, max_uses := some 1, used_count := 1 }

/-- A sample stored item for the CRUD service. -/
def sampleItem : Item :=
  { id := "t1", attrs := [("thread_id", "th9"), ("role", "user")] }

/-! ### Theorems -/

/-- Helper: a successful association-list lookup comes from a member. -/
theorem alistLookup_mem {β : Type} {l : List (String × β)} {a : String} {b : β}
    (h : alistLookup l a = some b) : (a, b) ∈ l := by
  induction l with
  | nil => simp [alistLookup] at h
  | cons p l ih =>
    cases p with
    | mk k v =>
      rw [alistLookup] at h
      by_cases hab : a = k
      · rw [if_pos hab] at h
        cases h
        subst hab
        exact List.mem_cons_self _ _
      · rw [if_neg hab] at h
        exact List.mem_cons_of_mem _ (ih h)

/-- Helper: erasing a key from an association list makes its lookup fail. -/
theorem alistLookup_erase {β : Type} {l : List (String × β)} {a : String} :
    alistLookup (alistErase l a) a = none := by
  induction l with
  | nil => rfl
  | cons p l ih =>
    cases p with
    | mk k v =>
      rw [alistErase]
      by_cases hk : k = a
      · rw [if_pos hk]; exact ih
      · rw [if_neg hk, alistLookup, if_neg (fun h => hk h.symm)]
        exact ih

/-- Helper: `validateFound` is the first-failure run of the ordered
check list, with the amount-format check in front. -/
theorem validateFound_eq_checksResult (d : Discount) (now : Int)
    (pid cid aid uid : Option String) (amount : Option RawAmount) :
    validateFound d now pid cid aid uid amount
      = checksResult d ((isBadAmount amount, Msg.invalidAmountFormat)
          :: orderedChecks d now pid cid aid uid (parsedAmount amount)) := rfl

/-- Helper: every run of a check list carries the looked-up discount. -/
theorem checksResult_discount (d : Discount) (l : List (Bool × Msg)) :
    (checksResult d l).discount = some d := by
  induction l with
  | nil => rfl
  | cons p rest ih =>
    cases p with
    | mk failed m =>
      rw [checksResult]
      by_cases hf : failed = true
      · rw [if_pos hf]
      · rw [if_neg hf]; exact ih

/-- Helper: the message of a check-list run is the first failure. -/
theorem checksResult_msg (d : Discount) (l : List (Bool × Msg)) :
    (checksResult d l).msg = firstFailing l := by
  induction l with
  | nil => rfl
  | cons p rest ih =>
    cases p with
    | mk failed m =>
      rw [checksResult, firstFailing]
      by_cases hf : failed = true
      · rw [if_pos hf, if_pos hf]
      · rw [if_neg hf, if_neg hf]; exact ih

/-- Helper: when no check message is the success message, a check-list
run succeeds exactly when no check fails. -/
theorem checksResult_ok (d : Discount) (l : List (Bool × Msg))
    (hm : ∀ p ∈ l, p.2 ≠ Msg.valid) :
    ((checksResult d l).ok = true ↔ firstFailing l = Msg.valid) := by
  induction l with
  | nil => simp [checksResult, firstFailing]
  | cons p rest ih =>
    cases p with
    | mk failed m =>
      rw [checksResult, firstFailing]
      by_cases hf : failed = true
      · rw [if_pos hf, if_pos hf]
        simp only [show (⟨false, some d, m⟩ : ValidateResult).ok = false from rfl]
        constructor
        · intro h; exact absurd h (by simp)
        · intro h; exact absurd h (hm (failed, m) (List.mem_cons_self _ _))
      · rw [if_neg hf, if_neg hf]
        exact ih (fun p hp => hm p (List.mem_cons_of_mem _ hp))

/-- Helper: every check result of `validateFound` carries the looked-up
discount. -/
theorem validateFound_discount (d : Discount) (now : Int)
    (pid cid aid uid : Option String) (amount : Option RawAmount) :
    (validateFound d now pid cid aid uid amount).discount = some d := by
  rw [validateFound_eq_checksResult]
  exact checksResult_discount _ _

/-- Helper: the discount carried by a validation result is exactly the
one stored under the code. -/
theorem validate_discount_eq_lookup (store : Store) (now : Int) (code : String)
    (pid cid aid uid : Option String) (amount : Option RawAmount) :
    (validate_discount_code store now code pid cid aid uid amount).discount
      = getDiscountByCode store code := by
  unfold validate_discount_code
  cases getDiscountByCode store code with
  | none => rfl
  | some d => exact validateFound_discount d now pid cid aid uid amount

/-- Helper: a successful lookup reduces `validate_discount_code` to
`validateFound`. -/
theorem validate_found {store : Store} (now : Int) {code : String}
    (pid cid aid uid : Option String) (amount : Option RawAmount) {d : Discount}
    (hd : getDiscountByCode store code = some d) :
    validate_discount_code store now code pid cid aid uid amount
      = validateFound d now pid cid aid uid amount := by
  unfold validate_discount_code
  rw [hd]

/-- Helper: no entry of the ordered check list carries the success
message. -/
theorem orderedChecks_msgs (d : Discount) (now : Int)
    (pid cid aid uid : Option String) (amt : Option ℚ) :
    ∀ p ∈ orderedChecks d now pid cid aid uid amt, p.2 ≠ Msg.valid := by
  intro p hp
  simp only [orderedChecks, List.mem_cons, List.not_mem_nil, or_false] at hp
  rcases hp with rfl | rfl | rfl | rfl | rfl | rfl | rfl | rfl | rfl | rfl | rfl <;> simp

/-- C1 counterexample: for a stored discount that is inactive and has
also exhausted its total usage limit, the source returns the
inactive-code message, while the first failing check of the claim's
ordered list (which starts at the usage limits) is the usage-limit
check — so the claim's ordering, which omits the leading active-flag
check, does not describe the code. -/
theorem C1_counterexample :
    (validate_discount_code [("SAVE10", inactiveExhausted)] 5 "SAVE10"
        none none none none none).msg = Msg.notActive ∧
    firstFailing (claimOrderChecks inactiveExhausted 5 none none none none none)
      = Msg.usageLimit ∧
    Msg.notActive ≠ Msg.usageLimit := by
  refine ⟨?_, ?_, by simp⟩
  · rfl
  · rfl

/-- C1 (amended): for every stored discount code and every combination
of inputs whose amount parses, `validate_discount_code` evaluates its
checks in the fixed source order — the active flag first, then the
total and per-user usage limits, the start/end date window, the minimum
purchase amount, product scoping, category scoping and affiliate
scoping — returning the rejection message of the first failing check,
succeeding exactly when every check passes, and always carrying the
stored discount. -/
theorem C1_validate_check_order (store : Store) (now : Int) (code : String)
    (pid cid aid uid : Option String) (amount : Option RawAmount) (d : Discount)
    (hd : getDiscountByCode store code = some d)
    (ha : isBadAmount amount = false) :
    (validate_discount_code store now code pid cid aid uid amount).msg
        = firstFailing (orderedChecks d now pid cid aid uid (parsedAmount amount)) ∧
    ((validate_discount_code store now code pid cid aid uid amount).ok = true ↔
        firstFailing (orderedChecks d now pid cid aid uid (parsedAmount amount)) = Msg.valid) ∧
    (validate_discount_code store now code pid cid aid uid amount).discount = some d := by
  have hv := (validate_found now pid cid aid uid amount hd).trans
    (validateFound_eq_checksResult d now pid cid aid uid amount)
  rw [checksResult, ha, if_neg Bool.false_ne_true] at hv
  refine ⟨?_, ?_, ?_⟩
  · rw [hv]; exact checksResult_msg _ _
  · rw [hv]
    exact checksResult_ok _ _ (orderedChecks_msgs d now pid cid aid uid (parsedAmount amount))
  · rw [hv]; exact checksResult_discount _ _

/-- C1 witness: the amended ordering theorem applied to a concrete
store, code and argument list. -/
theorem C1_validate_check_order_witness :
    (validate_discount_code [("SAVE10", sampleDiscount)] 5 "SAVE10"
        none none none (some "u7") (some (.dec 20))).msg
      = firstFailing (orderedChecks sampleDiscount 5 none none none (some "u7")
          (parsedAmount (some (.dec 20)))) :=
  (C1_validate_check_order [("SAVE10", sampleDiscount)] 5 "SAVE10"
    none none none (some "u7") (some (.dec 20)) sampleDiscount rfl rfl).1

/-- C2 counterexample: recording usage twice for the same discount and
the same user leaves `used_count` at 2 and the user's count at 2, while
recording once leaves both at 1 — usage recording is not idempotent. -/
theorem C2_counterexample :
    ((sampleDiscount.record_usage (some "u7")).record_usage (some "u7")).used_count = 2 ∧
    (sampleDiscount.record_usage (some "u7")).used_count = 1 ∧
    ((sampleDiscount.record_usage (some "u7")).record_usage
        (some "u7")).get_user_usage_count "u7" = 2 ∧
    (sampleDiscount.record_usage (some "u7")).get_user_usage_count "u7" = 1 := by
  refine ⟨rfl, rfl, ?_, ?_⟩ <;> rfl

/-- C2 (amended): usage recording is additive, not idempotent — each
invocation of `record_usage` increments `used_count` by one and the
given user's count by one (leaving other users' counts unchanged), so
two invocations with the same discount and user increment both counters
by two. -/
theorem C2_record_usage_adds_one (d : Discount) (u : String) (hu : u ≠ "") :
    (d.record_usage (some u)).used_count = d.used_count + 1 ∧
    (d.record_usage (some u)).get_user_usage_count u = d.get_user_usage_count u + 1 ∧
    ((d.record_usage (some u)).record_usage (some u)).used_count = d.used_count + 2 ∧
    ((d.record_usage (some u)).record_usage (some u)).get_user_usage_count u
      = d.get_user_usage_count u + 2 := by
  have htr : optStrTruthy (some u) = true := by simp [optStrTruthy, hu]
  unfold Discount.record_usage
  rw [htr]
  simp only [if_pos rfl]
  refine ⟨rfl, ?_, ?_, ?_⟩ <;>
    simp [Discount.get_user_usage_count, alistLookup, Option.getD]

/-- C2 witness: the additivity theorem applied to a concrete discount
and user. -/
theorem C2_record_usage_adds_one_witness :
    (sampleDiscount.record_usage (some "u7")).used_count = sampleDiscount.used_count + 1 :=
  (C2_record_usage_adds_one sampleDiscount "u7" (by decide)).1

/-- Helper: every month has at least one day. -/
theorem daysInMonth_pos (y m : Nat) : 1 ≤ daysInMonth y m := by
  unfold daysInMonth
  split_ifs <;> omega

/-- Helper: replacing the day by 1 always succeeds for a valid month. -/
theorem dateReplace_day_one {y m : Nat} (h1 : 1 ≤ m) (h2 : m ≤ 12) :
    dateReplace y m 1 = some ⟨y, m, 1⟩ := by
  unfold dateReplace
  rw [if_pos ⟨h1, h2, le_refl 1, daysInMonth_pos y m⟩]

set_option maxRecDepth 8000 in
/-- C3 counterexample: from 15 January 2023 the source's monthly branch
moves to the first day of February (not the claim's day-preserving,
month-end-clamped 15 February), and the quarterly branch adds 91 days
landing on 16 April (not the claim's calendar-quarter 15 April). -/
theorem C3_counterexample :
    next_payout_date .monthly ⟨2023, 1, 15⟩ = ⟨2023, 2, 1⟩ ∧
    claimMonthlyRollover ⟨2023, 1, 15⟩ = ⟨2023, 2, 15⟩ ∧
    ((⟨2023, 2, 1⟩ : Date) ≠ ⟨2023, 2, 15⟩) ∧
    next_payout_date .quarterly ⟨2023, 1, 15⟩ = ⟨2023, 4, 16⟩ ∧
    claimQuarterlyRollover ⟨2023, 1, 15⟩ = ⟨2023, 4, 15⟩ ∧
    ((⟨2023, 4, 16⟩ : Date) ≠ ⟨2023, 4, 15⟩) := by
  refine ⟨rfl, rfl, by decide, ?_, rfl, by decide⟩
  rfl

/-- C3 (amended): for every current date with a valid month, the
computed next payout date is one week later for weekly, two weeks later
for biweekly, 91 days (thirteen weeks, an approximation of a quarter)
later for quarterly, and the first day of the next calendar month for
monthly — the day-28 fallback of the source is dead code because day 1
exists in every month. -/
theorem C3_next_payout_characterisation (now : Date)
    (h1 : 1 ≤ now.month) (h2 : now.month ≤ 12) :
    next_payout_date .weekly now = addDays now 7 ∧
    next_payout_date .biweekly now = addDays now 14 ∧
    next_payout_date .quarterly now = addDays now 91 ∧
    next_payout_date .monthly now =
      (if now.month = 12 then ⟨now.year + 1, 1, 1⟩ else ⟨now.year, now.month + 1, 1⟩) := by
  refine ⟨rfl, rfl, rfl, ?_⟩
  by_cases h12 : now.month = 12
  · have hm : now.month % 12 + 1 = 1 := by rw [h12]
    rw [if_pos h12]
    simp [next_payout_date, hm,
      dateReplace_day_one (le_refl 1) (by norm_num : (1 : Nat) ≤ 12)]
  · have hmod : now.month % 12 = now.month := Nat.mod_eq_of_lt (by omega)
    have hne : ¬(now.month % 12 + 1 = 1) := by omega
    rw [if_neg h12]
    simp [next_payout_date, hmod, hne,
      dateReplace_day_one (by omega : 1 ≤ now.month + 1) (by omega : now.month + 1 ≤ 12)]
    omega

/-- C3 witness: the characterisation applied to 10 December 2024, whose
next monthly payout date is 1 January 2025. -/
theorem C3_next_payout_witness :
    next_payout_date .monthly ⟨2024, 12, 10⟩ = ⟨2025, 1, 1⟩ := by
  have h := (C3_next_payout_characterisation ⟨2024, 12, 10⟩ (by decide) (by decide)).2.2.2
  simpa using h

/-- C4: `apply_discount` on a parseable amount first validates the code;
on validation failure it returns `success = False` with the original
amount, the validator's discount and message, leaving the store
untouched; on success it returns the amount minus
`amount * discount_value / 100` for percentage discounts or minus
`min(discount_value, amount)` for fixed-amount discounts, clamped below
at zero, and records the usage against the stored discount. -/
theorem C4_apply_discount_spec (store : Store) (now : Int) (code : String)
    (a : ℚ) (uid pid cid aid : Option String) :
    (∀ od m,
      validate_discount_code store now code pid cid aid uid (some (.dec a)) = ⟨false, od, m⟩ →
      apply_discount store now code (.dec a) uid pid cid aid = (⟨false, a, od, m⟩, store)) ∧
    (∀ d m,
      validate_discount_code store now code pid cid aid uid (some (.dec a)) = ⟨true, some d, m⟩ →
      apply_discount store now code (.dec a) uid pid cid aid =
        (⟨true, max 0 (a - discountSubtrahend d a),
          some (d.record_usage (if optStrTruthy uid = true then uid else none)), .applied⟩,
         storeSet store code (d.record_usage (if optStrTruthy uid = true then uid else none)))) := by
  constructor
  · intro od m hval
    unfold apply_discount
    dsimp only
    rw [hval]
  · intro d m hval
    unfold apply_discount
    dsimp only
    rw [hval]

/-- C4 witness: the success clause applied to a concrete store, fixed
discount and amount. -/
theorem C4_apply_discount_spec_witness :
    apply_discount [("SAVE10", sampleDiscount)] 5 "SAVE10" (.dec 20) (some "u7")
        none none none =
      (⟨true, max 0 (20 - discountSubtrahend sampleDiscount 20),
        some (sampleDiscount.record_usage
          (if optStrTruthy (some "u7") = true then some "u7" else none)), .applied⟩,
       storeSet [("SAVE10", sampleDiscount)] "SAVE10"
         (sampleDiscount.record_usage
           (if optStrTruthy (some "u7") = true then some "u7" else none))) :=
  (C4_apply_discount_spec [("SAVE10", sampleDiscount)] 5 "SAVE10" 20 (some "u7")
    none none none).2 sampleDiscount .valid (by decide)

/-- C5: `BaseService` is a CRUD wrapper over an in-memory dictionary:
after `create(item)`, `get(item.id)` returns the item and
`exists(item.id)` is true; `delete(id)` returns true exactly when the
id was stored, and afterwards `get(id)` returns `None`; `get` of an
absent id returns `None`; and `list` with filters returns exactly the
stored items whose named attributes equal the filter values (given that
the filter keys are attributes of every stored item, since `getattr`
would raise otherwise). -/
theorem C5_base_service_crud (s : SvcStorage) (it : Item) (id : String)
    (filters : List (String × String)) (x : Item)
    (hattr : ∀ y ∈ svcValues s, ∀ kv ∈ filters, (itemAttr y kv.1).isSome = true) :
    svcGet (svcCreate s it) it.id = some it ∧
    svcExists (svcCreate s it) it.id = true ∧
    ((svcDelete s id).1 = true ↔ svcGet s id ≠ none) ∧
    svcGet (svcDelete s id).2 id = none ∧
    (svcExists s id = false → svcGet s id = none) ∧
    (x ∈ svcList s filters ↔ x ∈ svcValues s ∧ ∀ kv ∈ filters, itemAttr x kv.1 = some kv.2) := by
  refine ⟨?_, ?_, ?_, ?_, ?_, ?_⟩
  · simp [svcGet, svcCreate, alistLookup]
  · simp [svcExists, svcGet, svcCreate, alistLookup]
  · simp [svcDelete, svcGet, Option.isSome_iff_ne_none]
  · exact alistLookup_erase
  · intro h
    simpa [svcExists, Option.isSome_iff_ne_none] using h
  · unfold svcList
    by_cases hf : filters.isEmpty
    · rw [if_pos hf]
      rw [List.isEmpty_iff] at hf
      subst hf
      simp
    · rw [if_neg hf]
      rw [List.mem_filter]
      constructor
      · rintro ⟨hx, hm⟩
        refine ⟨hx, ?_⟩
        intro kv hkv
        have := (List.all_eq_true.mp hm) kv hkv
        simpa using this
      · rintro ⟨hx, hm⟩
        refine ⟨hx, ?_⟩
        rw [matchesFilters, List.all_eq_true]
        intro kv hkv
        simpa using hm kv hkv

/-- C5 witness: the create/get clause applied to a concrete storage
state and item. -/
theorem C5_base_service_crud_witness :
    svcGet (svcCreate [] sampleItem) sampleItem.id = some sampleItem :=
  (C5_base_service_crud [] sampleItem "absent" [("role", "user")] sampleItem
    (by decide)).1

/-- C6: processing a request that fails `MCPRequest` model validation
does not return a FAILED `MCPResponse` — the `except ValidationError`
handler evaluates the local variable `request`, which was never
assigned on this path, so `process_request` raises `UnboundLocalError`;
by contrast an unknown operation on a valid request does produce the
intended FAILED response with `success = False`. -/
theorem C6_invalid_request_raises :
    process_request [] .invalid = Except.error PyErr.unboundLocal ∧
    process_request [] (.valid ⟨1, "nope", []⟩) =
      Except.ok ⟨1, .failed,
        some ⟨false, none, some "Internal server error: Unknown operation: nope"⟩⟩ := by
  exact ⟨rfl, rfl⟩

/-- C7: discount validation is deterministic and depends only on the
stored discount reachable under the code (including its usage
counters), the current time and the arguments — two stores agreeing on
the looked-up code validate identically. -/
theorem C7_validate_deterministic (s1 s2 : Store) (now : Int) (code : String)
    (pid cid aid uid : Option String) (amount : Option RawAmount)
    (h : getDiscountByCode s1 code = getDiscountByCode s2 code) :
    validate_discount_code s1 now code pid cid aid uid amount
      = validate_discount_code s2 now code pid cid aid uid amount := by
  unfold validate_discount_code
  rw [h]

/-- C7 witness: two different stores with the same entry for the code
validate it identically. -/
theorem C7_validate_deterministic_witness :
    validate_discount_code [("SAVE10", sampleDiscount), ("OTHER", inactiveExhausted)]
        5 "SAVE10" none none none (some "u7") (some (.dec 20))
      = validate_discount_code [("SAVE10", sampleDiscount)]
        5 "SAVE10" none none none (some "u7") (some (.dec 20)) :=
  C7_validate_deterministic [("SAVE10", sampleDiscount), ("OTHER", inactiveExhausted)]
    [("SAVE10", sampleDiscount)] 5 "SAVE10" none none none (some "u7")
    (some (.dec 20)) (by decide)

/-- C8 counterexample: with a negative purchase amount (which no check
rejects when no minimum purchase is set), a fixed-amount discount
application succeeds and returns 0, which is strictly greater than the
original amount — the returned amount does not lie between zero and the
original amount. -/
theorem C8_counterexample :
    (apply_discount [("SAVE10", sampleDiscount)] 5 "SAVE10" (.dec (-10)) none
        none none none).1.success = true ∧
    (apply_discount [("SAVE10", sampleDiscount)] 5 "SAVE10" (.dec (-10)) none
        none none none).1.amount = 0 ∧
    ¬((apply_discount [("SAVE10", sampleDiscount)] 5 "SAVE10" (.dec (-10)) none
        none none none).1.amount ≤ -10) := by
  have hval : validate_discount_code [("SAVE10", sampleDiscount)] 5 "SAVE10"
      none none none none (some (.dec (-10))) = ⟨true, some sampleDiscount, .valid⟩ := by
    decide
  unfold apply_discount
  dsimp only
  rw [hval]
  refine ⟨rfl, ?_, ?_⟩ <;>
    norm_num [discountSubtrahend, sampleDiscount, min_def, max_def]

/-- C8 (amended): for every call of `apply_discount` with a nonnegative
parseable amount against a store of model-validated discounts, if the
call succeeds then the returned amount lies between zero and the
original amount inclusive: fixed-amount discounts are capped at the
purchase amount, the positive discount value keeps the subtrahend
nonnegative, and the result is clamped below at zero. -/
theorem C8_discount_bounds (store : Store) (now : Int) (code : String)
    (a : ℚ) (uid pid cid aid : Option String)
    (ha : 0 ≤ a)
    (hwf : ∀ p ∈ store, WfDiscount p.2)
    (hsucc : (apply_discount store now code (.dec a) uid pid cid aid).1.success = true) :
    0 ≤ (apply_discount store now code (.dec a) uid pid cid aid).1.amount ∧
    (apply_discount store now code (.dec a) uid pid cid aid).1.amount ≤ a := by
  cases hval : validate_discount_code store now code pid cid aid uid (some (.dec a)) with
  | mk ok od m =>
    cases ok with
    | false =>
      have happ : apply_discount store now code (.dec a) uid pid cid aid
          = (⟨false, a, od, m⟩, store) := by
        unfold apply_discount
        dsimp only
        rw [hval]
      rw [happ] at hsucc
      exact absurd hsucc (by simp)
    | true =>
      cases od with
      | none =>
        have happ : apply_discount store now code (.dec a) uid pid cid aid
            = (⟨false, a, none, m⟩, store) := by
          unfold apply_discount
          dsimp only
          rw [hval]
        rw [happ] at hsucc
        exact absurd hsucc (by simp)
      | some d =>
        have happ : apply_discount store now code (.dec a) uid pid cid aid
            = (⟨true, max 0 (a - discountSubtrahend d a),
                some (d.record_usage (if optStrTruthy uid = true then uid else none)),
                .applied⟩,
               storeSet store code
                 (d.record_usage (if optStrTruthy uid = true then uid else none))) := by
          unfold apply_discount
          dsimp only
          rw [hval]
        have hd : getDiscountByCode store code = some d := by
          have hl := validate_discount_eq_lookup store now code pid cid aid uid
            (some (.dec a))
          rw [hval] at hl
          exact hl.symm
        have hwd : WfDiscount d := hwf (code, d) (alistLookup_mem hd)
        have hvpos : 0 < d.discount_value := hwd.1
        have hsub : 0 ≤ discountSubtrahend d a := by
          unfold discountSubtrahend
          cases d.discount_type with
          | percentage =>
            exact div_nonneg (mul_nonneg ha hvpos.le) (by norm_num)
          | fixed_amount => exact le_min hvpos.le ha
        rw [happ]
        constructor
        · exact le_max_left 0 _
        · exact max_le ha (by linarith)

/-- C8 witness: the bounds applied to a concrete store and a concrete
nonnegative amount. -/
theorem C8_discount_bounds_witness :
    0 ≤ (apply_discount [("SAVE10", sampleDiscount)] 5 "SAVE10" (.dec 20)
        (some "u7") none none none).1.amount ∧
    (apply_discount [("SAVE10", sampleDiscount)] 5 "SAVE10" (.dec 20)
        (some "u7") none none none).1.amount ≤ 20 :=
  C8_discount_bounds [("SAVE10", sampleDiscount)] 5 "SAVE10" 20 (some "u7")
    none none none (by norm_num) (by decide) (by decide)

/-- C9 counterexample: when the amount cannot be parsed as a Decimal,
`apply_discount` returns `success = False` with the amount `Decimal(0)`
— not the original (unparseable) amount — though no usage is recorded. -/
theorem C9_counterexample :
    (apply_discount [("SAVE10", sampleDiscount)] 5 "SAVE10" (.bad "19.99x") none
        none none none).1.success = false ∧
    (apply_discount [("SAVE10", sampleDiscount)] 5 "SAVE10" (.bad "19.99x") none
        none none none).1.amount = 0 ∧
    RawAmount.dec ((apply_discount [("SAVE10", sampleDiscount)] 5 "SAVE10"
        (.bad "19.99x") none none none none).1.amount) ≠ RawAmount.bad "19.99x" ∧
    (apply_discount [("SAVE10", sampleDiscount)] 5 "SAVE10" (.bad "19.99x") none
        none none none).2 = [("SAVE10", sampleDiscount)] := by
  exact ⟨rfl, rfl, by simp, rfl⟩

/-- C9 (amended): whenever `apply_discount` returns `success = False`,
no usage is recorded — the store is unchanged — and the returned amount
is the original amount when the input parsed as a Decimal, and zero
when it did not. -/
theorem C9_apply_error_atomic (store : Store) (now : Int) (code : String)
    (raw : RawAmount) (uid pid cid aid : Option String)
    (hfail : (apply_discount store now code raw uid pid cid aid).1.success = false) :
    (apply_discount store now code raw uid pid cid aid).2 = store ∧
    (apply_discount store now code raw uid pid cid aid).1.amount
      = (match raw with | .dec q => q | .bad _ => 0) := by
  cases raw with
  | bad s => exact ⟨rfl, rfl⟩
  | dec a =>
    cases hval : validate_discount_code store now code pid cid aid uid (some (.dec a)) with
    | mk ok od m =>
      cases ok with
      | false =>
        have happ : apply_discount store now code (.dec a) uid pid cid aid
            = (⟨false, a, od, m⟩, store) := by
          unfold apply_discount
          dsimp only
          rw [hval]
        rw [happ]
        exact ⟨rfl, rfl⟩
      | true =>
        cases od with
        | none =>
          have happ : apply_discount store now code (.dec a) uid pid cid aid
              = (⟨false, a, none, m⟩, store) := by
            unfold apply_discount
            dsimp only
            rw [hval]
          rw [happ]
          exact ⟨rfl, rfl⟩
        | some d =>
          have happ : apply_discount store now code (.dec a) uid pid cid aid
              = (⟨true, max 0 (a - discountSubtrahend d a),
                  some (d.record_usage (if optStrTruthy uid = true then uid else none)),
                  .applied⟩,
                 storeSet store code
                   (d.record_usage (if optStrTruthy uid = true then uid else none))) := by
            unfold apply_discount
            dsimp only
            rw [hval]
          rw [happ] at hfail
          exact absurd hfail (by simp)

/-- C9 witness: the atomicity theorem applied to an unparseable amount
against a concrete store. -/
theorem C9_apply_error_atomic_witness :
    (apply_discount [("SAVE10", sampleDiscount)] 5 "SAVE10" (.bad "oops") none
        none none none).2 = [("SAVE10", sampleDiscount)] ∧
    (apply_discount [("SAVE10", sampleDiscount)] 5 "SAVE10" (.bad "oops") none
        none none none).1.amount
      = (match RawAmount.bad "oops" with | .dec q => q | .bad _ => 0) :=
  C9_apply_error_atomic [("SAVE10", sampleDiscount)] 5 "SAVE10" (.bad "oops")
    none none none none (by decide)

/-- C10: for every model-validated discount, `can_user_use_code` agrees
with the corresponding prefix of `validate_discount_code` — it returns
true exactly when the active-flag check, the total usage-limit check,
the per-user usage-limit check and the start/end date-window checks all
pass (model validation is needed because the per-user guard of the
model tests `is not None` while the service tests truthiness; they
agree since `max_uses_per_user` is constrained positive). -/
theorem C10_can_user_use_agrees (d : Discount) (now : Int) (uid : Option String)
    (hwf : WfDiscount d) :
    d.can_user_use_code now uid
      = (d.is_active && !usageLimitReached d && !perUserLimitReached d uid &&
         !beforeStart d now && !endExpired d now) := by
  obtain ⟨-, -, -, hmu, -, -⟩ := hwf
  have hopt : optNatTruthy d.max_uses_per_user = d.max_uses_per_user.isSome := by
    cases hmax : d.max_uses_per_user with
    | none => rfl
    | some mu =>
      rw [hmax] at hmu
      simp only [Option.all] at hmu
      have : mu ≠ 0 := by
        intro h0
        rw [h0] at hmu
        exact absurd (of_decide_eq_true hmu) (by norm_num)
      simp [optNatTruthy, this]
  have hpu : (optStrTruthy uid && d.max_uses_per_user.isSome &&
      d.max_uses_per_user.getD 0 ≤ d.get_user_usage_count (uid.getD ""))
        = perUserLimitReached d uid := by
    rw [perUserLimitReached, hopt]
  unfold Discount.can_user_use_code
  rw [hpu]
  split_ifs with h1 h2 h3 h4 h5 <;> simp_all

/-- C10 witness: the agreement applied to a concrete discount, time and
user. -/
theorem C10_can_user_use_agrees_witness :
    sampleDiscount.can_user_use_code 5 (some "u7")
      = (sampleDiscount.is_active && !usageLimitReached sampleDiscount &&
         !perUserLimitReached sampleDiscount (some "u7") &&
         !beforeStart sampleDiscount 5 && !endExpired sampleDiscount 5) :=
  C10_can_user_use_agrees sampleDiscount 5 (some "u7") (by decide)
